import Mathlib

/-!
# Verification of the College-Attendance-System check-in core

Shallow embedding of the attendance check-in verification flow of
`src/frontend/src/app/dashboard/studentDashboard.tsx`, the admin bulk
attendance update of `src/frontend/src/admindash/classes/page.tsx`, and
(modelled from the spec, since the Django backend is not in the sources)
the server-side Attendance Ledger.  Theorems settle the frozen claims
about this code.
-/

namespace AttendanceSystem

/-- Attendance status as used across the frontend
(`"Present" | "Absent" | "Late"`). -/
inductive Status where
  | Present
  | Absent
  | Late
deriving DecidableEq, Repr

/-- A still image captured from the live preview.  `id` is the capture
instance (each `capturePhoto` call produces a fresh one); `width`/`height`
come from `videoRef.current.videoWidth` / `.videoHeight`
(studentDashboard.tsx lines 186-188). -/
structure Frame where
  id : Nat
  width : Nat
  height : Nat
deriving DecidableEq, Repr

/-- The reply the face-verification endpoint delivers to the
`axios.post` in `handleAttendance` (lines 217-248): a JSON body with a
`verified` boolean, or a transport/service error (the `catch` branch). -/
inductive ServerReply where
  | verified
  | notVerified
  | transportError
deriving DecidableEq, Repr

/-- State of the student-dashboard check-in flow
(studentDashboard.tsx lines 70-75 plus the camera resource):

* `isCameraOpen`   — the `isCameraOpen` React state (controls the Dialog);
* `isChecking`     — the `isChecking` React state;
* `capturedImage`  — the `capturedImage` React state;
* `srcObject`      — the MediaStream attached to `videoRef.current.srcObject`;
* `liveStreams`    — streams acquired via `getUserMedia` whose tracks have
  not been stopped (the physical camera is on iff this is nonempty);
* `frameCounter`   — counts capture instances, to give frames an identity;
* `submittedLog`   — ids of frames actually POSTed to the verification
  endpoint, in order;
* `isVerified`     — the `isVerified` React state. -/
structure FlowState where
  isCameraOpen : Bool
  isChecking : Bool
  capturedImage : Option Frame
  srcObject : Option Nat
  liveStreams : List Nat
  frameCounter : Nat
  submittedLog : List Nat
  isVerified : Bool
deriving DecidableEq, Repr

/-- Initial component state (all flags false, nothing captured, no
stream). -/
def initState : FlowState :=
  { isCameraOpen := false
    isChecking := false
    capturedImage := none
    srcObject := none
    liveStreams := []
    frameCounter := 0
    submittedLog := []
    isVerified := false }

/-- `closeCamera` (lines 148-162): if a stream is attached to the video
element, stop each of its tracks and clear `srcObject`.  Note the
commented-out `setIsCameraOpen(false)` and `setCapturedImage(null)` —
`closeCamera` touches only the stream. -/
def closeCamera (s : FlowState) : FlowState :=
  match s.srcObject with
  | some sid =>
      { s with srcObject := none, liveStreams := s.liveStreams.filter (· ≠ sid) }
  | none => s

/-- `openCamera` (lines 164-182), success path: first `closeCamera()`,
then `setIsCameraOpen(true)`, then `getUserMedia` resolves with a fresh
stream `sid` which is attached to the video element. -/
def openCameraOk (sid : Nat) (s : FlowState) : FlowState :=
  let s := closeCamera s
  let s := { s with isCameraOpen := true }
  { s with liveStreams := sid :: s.liveStreams, srcObject := some sid }

/-- `openCamera` (lines 164-182), error path: `closeCamera()`,
`setIsCameraOpen(true)`, then `getUserMedia` throws; the `catch` branch
shows a toast and calls `closeCamera()` again.  No stream is acquired. -/
def openCameraErr (s : FlowState) : FlowState :=
  let s := closeCamera s
  let s := { s with isCameraOpen := true }
  closeCamera s

/-- `capturePhoto` (lines 184-194): guarded only by
`if (videoRef.current)` — the video element is mounted exactly when the
dialog is open and no image is captured yet (lines 554-567).  It copies
the preview dimensions onto a canvas, snapshots it into a data URL
(whatever the dimensions are — there is no readiness check), stores it in
`capturedImage`, and closes the camera. -/
def capturePhoto (w h : Nat) (s : FlowState) : FlowState :=
  if s.isCameraOpen = true ∧ s.capturedImage = none then
    closeCamera
      { s with
        capturedImage := some { id := s.frameCounter, width := w, height := h }
        frameCounter := s.frameCounter + 1 }
  else s

/-- `retakePhoto` (lines 196-199): `setCapturedImage(null)` then
`openCamera()`; success path of the reopen. -/
def retakePhotoOk (sid : Nat) (s : FlowState) : FlowState :=
  openCameraOk sid { s with capturedImage := none }

/-- `retakePhoto` (lines 196-199), with the reopen failing. -/
def retakePhotoErr (s : FlowState) : FlowState :=
  openCameraErr { s with capturedImage := none }

/-- `handleAttendance` (lines 201-255).  With no captured image it shows
a toast and returns (`setIsChecking` goes true then false; net state
unchanged).  With a captured image it POSTs the frame, then on every
outcome — verified, not verified, or transport error — the `finally`
block runs `setIsChecking(false)`, `setIsCameraOpen(false)`,
`setCapturedImage(null)` and `closeCamera()`. -/
def handleAttendance (reply : ServerReply) (s : FlowState) : FlowState :=
  match s.capturedImage with
  | none => s
  | some frame =>
      let s := { s with submittedLog := s.submittedLog ++ [frame.id] }
      let s :=
        match reply with
        | .verified => { s with isVerified := true }
        | .notVerified => { s with isVerified := false }
        | .transportError => s
      closeCamera
        { s with isChecking := false, isCameraOpen := false, capturedImage := none }

/-- Closing the check-in dialog: `<Dialog open={isCameraOpen}
onOpenChange={setIsCameraOpen}>` (line 547).  The only handler is
`setIsCameraOpen`; the dialog content (and with it the video element
holding the `srcObject` reference) unmounts, but no track is stopped —
`closeCamera` is never called on this path. -/
def dialogClose (s : FlowState) : FlowState :=
  { s with isCameraOpen := false, srcObject := none }

/-- Events of the check-in flow, one per user-visible handler invocation
(camera acquisition and the network reply are folded into the event so
that each event is one atomic state update, matching the single-threaded
cooperative model). -/
inductive Ev where
  | openCamOk (sid : Nat)
  | openCamErr
  | capture (w h : Nat)
  | retakeOk (sid : Nat)
  | retakeErr
  | submit (reply : ServerReply)
  | dialogClose
deriving DecidableEq, Repr

/-- One step of the check-in flow. -/
def step (s : FlowState) : Ev → FlowState
  | .openCamOk sid => openCameraOk sid s
  | .openCamErr => openCameraErr s
  | .capture w h => capturePhoto w h s
  | .retakeOk sid => retakePhotoOk sid s
  | .retakeErr => retakePhotoErr s
  | .submit reply => handleAttendance reply s
  | .dialogClose => dialogClose s

/-- Run a sequence of events from the initial component state. -/
def run (evs : List Ev) : FlowState :=
  evs.foldl step initState

/-- The `disabled` prop of the Take Attendance button (lines 393-401):
every guard (`isChecking`, `isVerified`, same-day check, radius check) is
commented out and the literal `false //TESTING` is what ships. -/
def takeAttendanceDisabled : Bool := false

/-! ## Verification Client request (handleAttendance, lines 217-224)

`axios.post(url, body)` is called with no config object, so no `timeout`
option is set; axios then waits for the response indefinitely. -/

/-- The subset of an axios request configuration relevant here: target URL
and the optional `timeout` (milliseconds). -/
structure AxiosRequestConfig where
  url : String
  timeoutMs : Option Nat
deriving DecidableEq, Repr

/-- The verification request issued by `handleAttendance`
(lines 218-224): `axios.post` with only a URL and a body, hence with the
axios default of no timeout. -/
def faceVerificationRequest : AxiosRequestConfig :=
  { url := "http://localhost:8000/api/face-verification", timeoutMs := none }

/-- Whether the request promise ever settles, as a function of when (if
ever) the server response arrives: it settles when a response arrives, or
when a configured timeout fires; with no response and no timeout it stays
pending forever. -/
def settles (cfg : AxiosRequestConfig) (arrival : Option Nat) : Bool :=
  match arrival, cfg.timeoutMs with
  | some _, _ => true
  | none, some _ => true
  | none, none => false

/-! ## GeoFence Evaluator (studentDashboard.tsx lines 131-146 and the
geolocation effect, lines 97-129)

Modelled over the real numbers (the source computes with JS doubles; the
claims concern the ideal haversine values). -/

/-- `deg2rad` (lines 144-146). -/
noncomputable def deg2rad (deg : ℝ) : ℝ := deg * (Real.pi / 180)

/-- JavaScript `Math.atan2(y, x)` on the reals. -/
noncomputable def atan2 (y x : ℝ) : ℝ :=
  if 0 < x then Real.arctan (y / x)
  else if x < 0 then
    (if 0 ≤ y then Real.arctan (y / x) + Real.pi else Real.arctan (y / x) - Real.pi)
  else
    (if 0 < y then Real.pi / 2 else if y < 0 then -(Real.pi / 2) else 0)

/-- `getDistanceFromLatLonInMeters` (lines 131-142): haversine distance
with `R = 6371e3` meters. -/
noncomputable def getDistanceFromLatLonInMeters (lat1 lon1 lat2 lon2 : ℝ) : ℝ :=
  let R : ℝ := 6371000
  let dLat := deg2rad (lat2 - lat1)
  let dLon := deg2rad (lon2 - lon1)
  let a :=
    Real.sin (dLat / 2) * Real.sin (dLat / 2) +
      Real.cos (deg2rad lat1) * Real.cos (deg2rad lat2) *
        Real.sin (dLon / 2) * Real.sin (dLon / 2)
  let c := 2 * atan2 (Real.sqrt a) (Real.sqrt (1 - a))
  R * c

/-- A device or campus coordinate (degrees). -/
structure GeoCoordinate where
  lat : ℝ
  lon : ℝ

/-- Campus center plus allowed radius (`collegeLatitude`,
`collegeLongitude`, `allowedRadius`, lines 78-85). -/
structure CampusFence where
  center : GeoCoordinate
  radiusMeters : ℝ

/-- Result of the geofence evaluation. -/
structure EvalResult where
  distanceMeters : ℝ
  withinFence : Prop

/-- The geofence evaluation as the source performs it (geolocation effect,
lines 102-104): distance from the device to the campus center via
`getDistanceFromLatLonInMeters`, and the within-radius test
`distance <= allowedRadius`. -/
noncomputable def evaluate (point : GeoCoordinate) (fence : CampusFence) : EvalResult :=
  let d := getDistanceFromLatLonInMeters point.lat point.lon fence.center.lat fence.center.lon
  { distanceMeters := d, withinFence := d ≤ fence.radiusMeters }

/-- The campus center hard-coded at lines 79-80. -/
noncomputable def collegeCenter : GeoCoordinate :=
  { lat := 27.71477743675058, lon := 85.30895279815599 }

/-- The configured fence: campus center with `allowedRadius = 100` m. -/
noncomputable def collegeFence : CampusFence :=
  { center := collegeCenter, radiusMeters := 100 }

/-! ## Attendance Ledger (server side)

The Django backend is not among the sources; only its frontend callers
are.  The ledger write path is therefore modelled from the spec. -/

/-- An attendance record: `(studentId, date, status, recordedAt)`. -/
structure AttendanceRecord where
  studentId : String
  date : String
  status : Status
  recordedAt : Nat
deriving DecidableEq, Repr

/-- Whether a record is for the given `(studentId, date)` pair. -/
def matchesPair (sid dat : String) (r : AttendanceRecord) : Bool :=
  r.studentId == sid && r.date == dat

/-- Modelled from the spec: the server-side Attendance Ledger and its
`recordVerifiedCheckIn(studentId, date)` operation (spec section 4.5) are
part of the Django backend, which is missing from the sources.  Per the
spec it is an idempotent upsert keyed on `(studentId, date)`: if a record
for the pair exists it is returned unchanged; otherwise a new record is
created with the current timestamp.  Returns the record the caller
observes together with the resulting ledger. -/
def recordVerifiedCheckIn (led : List AttendanceRecord) (sid dat : String) (now : Nat) :
    AttendanceRecord × List AttendanceRecord :=
  match led.find? (matchesPair sid dat) with
  | some r => (r, led)
  | none =>
      let r : AttendanceRecord := ⟨sid, dat, Status.Present, now⟩
      (r, r :: led)

/-- A sequence of `recordVerifiedCheckIn` calls for the same
`(studentId, date)`, one per timestamp in `times`; returns the list of
records the successive calls return, and the final ledger. -/
def callSeq (sid dat : String) : List Nat → List AttendanceRecord →
    List AttendanceRecord × List AttendanceRecord
  | [], led => ([], led)
  | t :: ts, led =>
      let fst := recordVerifiedCheckIn led sid dat t
      let rest := callSeq sid dat ts fst.2
      (fst.1 :: rest.1, rest.2)

/-- Number of persisted records for a `(studentId, date)` pair. -/
def countPair (led : List AttendanceRecord) (sid dat : String) : Nat :=
  (led.filter (matchesPair sid dat)).length

/-! ## Admin bulk attendance update (admindash/classes/page.tsx)

`updateAttendanceStatus` (lines 284-290) PUTs one record; the server
either applies the status to that record or the request fails.
`bulkUpdateAttendance` (lines 292-299) does
`ids.map((id) => updateAttendanceStatus(id, status))` under `Promise.all`
— independent per-record requests issued in array order, no batch
transaction.  The attendance table is modelled as a list of
`(record id, status)` pairs and per-request failure by a predicate on
record ids. -/

/-- Server effect of one successful `PUT /attendance/id/`: set the status
of every row with that id. -/
def updateOne (db : List (Nat × Status)) (id : Nat) (st : Status) : List (Nat × Status) :=
  db.map fun r => if r.1 = id then (r.1, st) else r

/-- Server effect of one `updateAttendanceStatus(id, status)` call when
the request for `id` may fail: a failed request changes nothing. -/
def updateAttendanceStatusEffect (fails : Nat → Bool) (db : List (Nat × Status))
    (id : Nat) (st : Status) : List (Nat × Status) :=
  if fails id then db else updateOne db id st

/-- Server effect of `bulkUpdateAttendance(ids, status)`: the per-id
requests created by `ids.map`, applied in array order, each succeeding or
failing independently. -/
def bulkUpdateAttendanceEffect (fails : Nat → Bool) (db : List (Nat × Status))
    (ids : List Nat) (st : Status) : List (Nat × Status) :=
  ids.foldl (fun d i => updateAttendanceStatusEffect fails d i st) db

/-- The spec reading of the bulk action: issue
`updateAttendanceStatus(id, status)` once per id, in order. -/
def sequentialUpdatesEffect (fails : Nat → Bool) :
    List (Nat × Status) → List Nat → Status → List (Nat × Status)
  | db, [], _ => db
  | db, i :: rest, st =>
      sequentialUpdatesEffect fails (updateAttendanceStatusEffect fails db i st) rest st

/-! ## Verified-today indicator (studentDashboard.tsx lines 89-95) -/

/-- A JavaScript `Date` viewed in local time: calendar fields plus
time-of-day (enough to distinguish calendar-day comparison from 24-hour
windows). -/
structure JSDate where
  year : Int
  month : Nat
  day : Nat
  hour : Nat
  minute : Nat
deriving DecidableEq, Repr

/-- `Date.prototype.toDateString()` renders weekday, month name, day and
year in local time; two dates render to equal strings exactly when their
local `(year, month, day)` agree, the weekday being a function of those.
Modelled as that triple. -/
def toDateString (d : JSDate) : Int × Nat × Nat := (d.year, d.month, d.day)

/-- The `isVerified` effect (lines 89-95): when `studentData` is present,
`setIsVerified(new Date(studentData.last_check_in).toDateString() ===
new Date().toDateString())`; when absent the effect body does not run and
`isVerified` keeps its previous value.  `lastCheckIn` is the parsed
`last_check_in` in local time, `now` the current local time. -/
def isVerifiedAfterLoad (lastCheckIn : Option JSDate) (now : JSDate) (prev : Bool) : Bool :=
  match lastCheckIn with
  | some d => toDateString d == toDateString now
  | none => prev

/-- Number of capture events in a trace. -/
def countCaptures (evs : List Ev) : Nat :=
  (evs.filter fun e => match e with | .capture _ _ => true | _ => false).length

/-- Camera-resource invariant: the only live stream (if any) is the one
attached to the video element, and once the dialog is closed no stream is
live. -/
def camInv (s : FlowState) : Prop :=
  (∀ sid, s.srcObject = some sid → s.liveStreams = [sid]) ∧
  (s.srcObject = none → s.liveStreams = []) ∧
  (s.isCameraOpen = false → s.liveStreams = [])

/-- Frame-freshness invariant: the log of submitted frame ids is strictly
increasing and bounded by the capture counter, and any currently held
frame is newer than everything already submitted. -/
def subInv (s : FlowState) : Prop :=
  s.submittedLog.Sorted (· < ·) ∧
  (∀ f ∈ s.submittedLog, f < s.frameCounter) ∧
  (∀ fr, s.capturedImage = some fr →
    fr.id < s.frameCounter ∧ ∀ g ∈ s.submittedLog, g < fr.id)

/-! ## Helper lemmas -/

theorem closeCamera_srcObject (s : FlowState) : (closeCamera s).srcObject = none := by
  cases h : s.srcObject <;> simp [closeCamera, h]

theorem closeCamera_live_of_camInv (s : FlowState) (hinv : camInv s) :
    (closeCamera s).liveStreams = [] := by
  cases h : s.srcObject with
  | none => simpa [closeCamera, h] using hinv.2.1 h
  | some sid =>
      have := hinv.1 sid h
      simp [closeCamera, h, this]

theorem step_openCamOk (sid : Nat) (s : FlowState) :
    step s (Ev.openCamOk sid) =
      { s with
        isCameraOpen := true
        srcObject := some sid
        liveStreams := sid :: (closeCamera s).liveStreams } := by
  cases h : s.srcObject <;> simp [step, openCameraOk, closeCamera, h]

theorem step_openCamErr (s : FlowState) :
    step s Ev.openCamErr =
      { s with
        isCameraOpen := true
        srcObject := none
        liveStreams := (closeCamera s).liveStreams } := by
  cases h : s.srcObject <;> simp [step, openCameraErr, closeCamera, h]

theorem step_capture_pos (w hh : Nat) (s : FlowState)
    (hg : s.isCameraOpen = true ∧ s.capturedImage = none) :
    step s (Ev.capture w hh) =
      { s with
        capturedImage := some { id := s.frameCounter, width := w, height := hh }
        frameCounter := s.frameCounter + 1
        srcObject := none
        liveStreams := (closeCamera s).liveStreams } := by
  cases h : s.srcObject <;> simp [step, capturePhoto, hg.1, hg.2, closeCamera, h]

theorem step_capture_neg (w hh : Nat) (s : FlowState)
    (hg : ¬(s.isCameraOpen = true ∧ s.capturedImage = none)) :
    step s (Ev.capture w hh) = s := by
  simp only [step, capturePhoto]
  rw [if_neg hg]

theorem step_retakeOk (sid : Nat) (s : FlowState) :
    step s (Ev.retakeOk sid) =
      { s with
        isCameraOpen := true
        srcObject := some sid
        capturedImage := none
        liveStreams := sid :: (closeCamera s).liveStreams } := by
  cases h : s.srcObject <;> simp [step, retakePhotoOk, openCameraOk, closeCamera, h]

theorem step_retakeErr (s : FlowState) :
    step s Ev.retakeErr =
      { s with
        isCameraOpen := true
        srcObject := none
        capturedImage := none
        liveStreams := (closeCamera s).liveStreams } := by
  cases h : s.srcObject <;> simp [step, retakePhotoErr, openCameraErr, closeCamera, h]

theorem step_submit_none (reply : ServerReply) (s : FlowState)
    (hc : s.capturedImage = none) : step s (Ev.submit reply) = s := by
  simp [step, handleAttendance, hc]

theorem step_submit_some (reply : ServerReply) (s : FlowState) (fr : Frame)
    (hc : s.capturedImage = some fr) :
    step s (Ev.submit reply) =
      { s with
        isChecking := false
        isCameraOpen := false
        capturedImage := none
        srcObject := none
        liveStreams := (closeCamera s).liveStreams
        submittedLog := s.submittedLog ++ [fr.id]
        isVerified :=
          match reply with
          | .verified => true
          | .notVerified => false
          | .transportError => s.isVerified } := by
  cases reply <;> cases h : s.srcObject <;>
    simp [step, handleAttendance, hc, closeCamera, h]

theorem step_dialogClose (s : FlowState) :
    step s Ev.dialogClose = { s with isCameraOpen := false, srcObject := none } := rfl

theorem camInv_initState : camInv initState := by
  refine ⟨fun sid h => ?_, fun _ => rfl, fun _ => rfl⟩
  simp [initState] at h

theorem camInv_step (s : FlowState) (e : Ev) (hinv : camInv s)
    (he : e ≠ Ev.dialogClose) : camInv (step s e) := by
  have hlive := closeCamera_live_of_camInv s hinv
  cases e with
  | openCamOk sid =>
      rw [step_openCamOk, hlive]
      refine ⟨fun sid2 h2 => ?_, fun h2 => ?_, fun h2 => ?_⟩ <;> simp_all
  | openCamErr =>
      rw [step_openCamErr, hlive]
      refine ⟨fun sid2 h2 => ?_, fun h2 => ?_, fun h2 => ?_⟩ <;> simp_all
  | capture w hh =>
      by_cases hg : s.isCameraOpen = true ∧ s.capturedImage = none
      · rw [step_capture_pos w hh s hg, hlive]
        refine ⟨fun sid2 h2 => ?_, fun h2 => ?_, fun h2 => ?_⟩ <;> simp_all
      · rw [step_capture_neg w hh s hg]; exact hinv
  | retakeOk sid =>
      rw [step_retakeOk, hlive]
      refine ⟨fun sid2 h2 => ?_, fun h2 => ?_, fun h2 => ?_⟩ <;> simp_all
  | retakeErr =>
      rw [step_retakeErr, hlive]
      refine ⟨fun sid2 h2 => ?_, fun h2 => ?_, fun h2 => ?_⟩ <;> simp_all
  | submit reply =>
      cases hc : s.capturedImage with
      | none => rw [step_submit_none reply s hc]; exact hinv
      | some fr =>
          rw [step_submit_some reply s fr hc, hlive]
          refine ⟨fun sid2 h2 => ?_, fun h2 => ?_, fun h2 => ?_⟩ <;> simp_all
  | dialogClose => exact absurd rfl he

theorem camInv_run (evs : List Ev) (h : ∀ e ∈ evs, e ≠ Ev.dialogClose) :
    camInv (run evs) := by
  have main : ∀ (l : List Ev) (s : FlowState), camInv s →
      (∀ e ∈ l, e ≠ Ev.dialogClose) → camInv (l.foldl step s) := by
    intro l
    induction l with
    | nil => intro s hs _; exact hs
    | cons e rest ih =>
        intro s hs hl
        exact ih (step s e) (camInv_step s e hs (hl e (by simp)))
          (fun x hx => hl x (by simp [hx]))
  exact main evs initState camInv_initState h

theorem subInv_initState : subInv initState := by
  refine ⟨List.sorted_nil, fun f hf => ?_, fun fr hfr => ?_⟩
  · simp [initState] at hf
  · simp [initState] at hfr

theorem subInv_congr (s t : FlowState) (h1 : t.capturedImage = s.capturedImage)
    (h2 : t.frameCounter = s.frameCounter) (h3 : t.submittedLog = s.submittedLog)
    (h : subInv s) : subInv t := by
  rw [subInv, h1, h2, h3]; exact h

theorem subInv_step (s : FlowState) (e : Ev) (h : subInv s) : subInv (step s e) := by
  cases e with
  | openCamOk sid => exact subInv_congr s _ (by rw [step_openCamOk]) (by rw [step_openCamOk]) (by rw [step_openCamOk]) h
  | openCamErr => exact subInv_congr s _ (by rw [step_openCamErr]) (by rw [step_openCamErr]) (by rw [step_openCamErr]) h
  | capture w hh =>
      by_cases hg : s.isCameraOpen = true ∧ s.capturedImage = none
      · rw [step_capture_pos w hh s hg]
        refine ⟨h.1, fun f hf => ?_, fun fr hfr => ?_⟩
        · exact Nat.lt_succ_of_lt (h.2.1 f hf)
        · simp only [Option.some.injEq] at hfr
          refine ⟨?_, fun g hg2 => ?_⟩
          · rw [← hfr]; exact Nat.lt_succ_self _
          · rw [← hfr]; exact h.2.1 g hg2
      · rw [step_capture_neg w hh s hg]; exact h
  | retakeOk sid =>
      rw [step_retakeOk]
      exact ⟨h.1, h.2.1, fun fr hfr => by simp at hfr⟩
  | retakeErr =>
      rw [step_retakeErr]
      exact ⟨h.1, h.2.1, fun fr hfr => by simp at hfr⟩
  | submit reply =>
      cases hc : s.capturedImage with
      | none => rw [step_submit_none reply s hc]; exact h
      | some fr =>
          rw [step_submit_some reply s fr hc]
          have hfr := h.2.2 fr hc
          refine ⟨?_, fun f hf => ?_, fun fr2 hfr2 => ?_⟩
          · show List.Pairwise (· < ·) (s.submittedLog ++ [fr.id])
            refine List.pairwise_append.mpr ⟨h.1, List.pairwise_singleton _ _, ?_⟩
            intro a ha b hb
            rw [List.mem_singleton] at hb
            rw [hb]
            exact hfr.2 a ha
          · have hf2 : f ∈ s.submittedLog ++ [fr.id] := hf
            rw [List.mem_append] at hf2
            rcases hf2 with hf2 | hf2
            · exact h.2.1 f hf2
            · rw [List.mem_singleton] at hf2
              rw [hf2]
              exact hfr.1
          · simp at hfr2
  | dialogClose =>
      exact subInv_congr s _ (by rw [step_dialogClose]) (by rw [step_dialogClose])
        (by rw [step_dialogClose]) h

theorem subInv_run (evs : List Ev) : subInv (run evs) := by
  have main : ∀ (l : List Ev) (s : FlowState), subInv s → subInv (l.foldl step s) := by
    intro l
    induction l with
    | nil => intro s hs; exact hs
    | cons e rest ih => intro s hs; exact ih (step s e) (subInv_step s e hs)
  exact main evs initState subInv_initState

theorem frameCounter_le_countCaptures (evs : List Ev) :
    (run evs).frameCounter ≤ countCaptures evs := by
  have hstep : ∀ (s : FlowState) (e : Ev),
      (step s e).frameCounter ≤ s.frameCounter + countCaptures [e] := by
    intro s e
    cases e with
    | openCamOk sid => rw [step_openCamOk]; simp [countCaptures]
    | openCamErr => rw [step_openCamErr]; simp [countCaptures]
    | capture w hh =>
        by_cases hg : s.isCameraOpen = true ∧ s.capturedImage = none
        · rw [step_capture_pos w hh s hg]; simp [countCaptures, List.filter]
        · rw [step_capture_neg w hh s hg]; simp [countCaptures, List.filter]
    | retakeOk sid => rw [step_retakeOk]; simp [countCaptures]
    | retakeErr => rw [step_retakeErr]; simp [countCaptures]
    | submit reply =>
        cases hc : s.capturedImage with
        | none => rw [step_submit_none reply s hc]; simp [countCaptures]
        | some fr => rw [step_submit_some reply s fr hc]; simp [countCaptures]
    | dialogClose => rw [step_dialogClose]; simp [countCaptures]
  have main : ∀ (l : List Ev) (s : FlowState),
      (l.foldl step s).frameCounter ≤ s.frameCounter + countCaptures l := by
    intro l
    induction l with
    | nil => intro s; simp [countCaptures]
    | cons e rest ih =>
        intro s
        calc (rest.foldl step (step s e)).frameCounter
            ≤ (step s e).frameCounter + countCaptures rest := ih (step s e)
          _ ≤ s.frameCounter + countCaptures [e] + countCaptures rest := by
              exact Nat.add_le_add_right (hstep s e) _
          _ = s.frameCounter + countCaptures (e :: rest) := by
              simp [countCaptures, List.filter]
              cases e <;> simp [Nat.add_comm, Nat.add_assoc, Nat.add_left_comm]
  have := main evs initState
  simpa [run, initState] using this

theorem sorted_lt_bounded_length_le (l : List Nat) (n : Nat)
    (hs : l.Sorted (· < ·)) (hb : ∀ x ∈ l, x < n) : l.length ≤ n := by
  have hnd : l.Nodup := hs.nodup
  have hsub : l.toFinset ⊆ Finset.range n := by
    intro x hx
    rw [List.mem_toFinset] at hx
    exact Finset.mem_range.mpr (hb x hx)
  have := Finset.card_le_card hsub
  rwa [List.toFinset_card_of_nodup hnd, Finset.card_range] at this

/-! ## Claim theorems: check-in state machine -/

/-- C2 counterexample: the claim that every exit path stops all media
tracks is false.  Opening the camera and then closing the check-in dialog
(the Dialog's `onOpenChange` is just `setIsCameraOpen`, line 547) returns
the flow to its idle configuration (dialog closed, nothing captured, not
checking) with the acquired stream's tracks still live: the camera handle
is leaked. -/
theorem camera_leak_on_dialog_close :
    (run [Ev.openCamOk 0, Ev.dialogClose]).isCameraOpen = false ∧
    (run [Ev.openCamOk 0, Ev.dialogClose]).capturedImage = none ∧
    (run [Ev.openCamOk 0, Ev.dialogClose]).isChecking = false ∧
    (run [Ev.openCamOk 0, Ev.dialogClose]).liveStreams = [0] := by decide

/-- C2 (amended): on every exit path other than closing the check-in
dialog with the camera live — that is, in any event sequence with no
dialog-close event — the camera is released: whenever the dialog is
closed, no media track is live; whenever no stream is attached to the
video element, no track is live; and at most the attached stream is ever
live. -/
theorem camera_released_without_dialog_close (evs : List Ev)
    (h : ∀ e ∈ evs, e ≠ Ev.dialogClose) :
    ((run evs).isCameraOpen = false → (run evs).liveStreams = []) ∧
    ((run evs).srcObject = none → (run evs).liveStreams = []) ∧
    (∀ sid, (run evs).srcObject = some sid → (run evs).liveStreams = [sid]) := by
  have hinv := camInv_run evs h
  exact ⟨hinv.2.2, hinv.2.1, hinv.1⟩

/-- Witness for the C2 amended theorem on a full successful check-in. -/
theorem camera_released_without_dialog_close_witness :
    (run [Ev.openCamOk 0, Ev.capture 640 480, Ev.submit ServerReply.verified]).liveStreams
      = [] :=
  (camera_released_without_dialog_close
    [Ev.openCamOk 0, Ev.capture 640 480, Ev.submit ServerReply.verified]
    (by decide)).1 (by decide)

/-- C3: each submission consumes exactly one captured frame.  The log of
submitted frame ids never repeats a frame, no more frames are submitted
than were captured, after any submission outcome the captured frame is
discarded, and a submit with no captured frame is a no-op (the early
return at lines 204-212: no network call, state unchanged). -/
theorem each_submission_consumes_one_frame :
    (∀ evs : List Ev,
      (run evs).submittedLog.Nodup ∧
      (run evs).submittedLog.length ≤ countCaptures evs) ∧
    (∀ (s : FlowState) (reply : ServerReply),
      (step s (Ev.submit reply)).capturedImage = none) ∧
    (∀ (s : FlowState) (reply : ServerReply),
      s.capturedImage = none → step s (Ev.submit reply) = s) := by
  refine ⟨fun evs => ?_, fun s reply => ?_, fun s reply hc => step_submit_none reply s hc⟩
  · have hsub := subInv_run evs
    refine ⟨hsub.1.nodup, ?_⟩
    exact le_trans (sorted_lt_bounded_length_le _ _ hsub.1 hsub.2.1)
      (frameCounter_le_countCaptures evs)
  · cases hc : s.capturedImage with
    | none => rw [step_submit_none reply s hc]; exact hc
    | some fr => rw [step_submit_some reply s fr hc]

/-- Witness for C3: a submit without a captured frame leaves the initial
state unchanged. -/
theorem each_submission_consumes_one_frame_witness :
    step initState (Ev.submit ServerReply.verified) = initState :=
  each_submission_consumes_one_frame.2.2 initState ServerReply.verified rfl

/-- C5 counterexample: `handleAttendance` posts with `axios.post(url,
body)` and no config object, so no timeout is configured, and a request
whose response never arrives never settles — the caller waits
indefinitely instead of receiving a SERVICE_ERROR outcome. -/
theorem submit_request_has_no_timeout :
    faceVerificationRequest.timeoutMs = none ∧
    settles faceVerificationRequest none = false :=
  ⟨rfl, rfl⟩

/-- C5 (amended): the verification request sets no timeout (axios
default: wait indefinitely); a response that does arrive always settles
the request, and a transport/service error that is delivered is handled —
the flow stops checking, discards the frame and closes the camera and
dialog — but a request that never completes is never converted into an
error outcome. -/
theorem submit_no_timeout_behavior :
    faceVerificationRequest.timeoutMs = none ∧
    (∀ t : Nat, settles faceVerificationRequest (some t) = true) ∧
    settles faceVerificationRequest none = false ∧
    (∀ (s : FlowState) (fr : Frame), s.capturedImage = some fr →
      (step s (Ev.submit ServerReply.transportError)).isChecking = false ∧
      (step s (Ev.submit ServerReply.transportError)).capturedImage = none ∧
      (step s (Ev.submit ServerReply.transportError)).srcObject = none ∧
      (step s (Ev.submit ServerReply.transportError)).isCameraOpen = false) := by
  refine ⟨rfl, fun t => rfl, rfl, fun s fr hc => ?_⟩
  rw [step_submit_some ServerReply.transportError s fr hc]
  exact ⟨rfl, rfl, rfl, rfl⟩

/-- Witness for the C5 amended theorem. -/
theorem submit_no_timeout_behavior_witness :
    (step (run [Ev.openCamOk 0, Ev.capture 2 2])
      (Ev.submit ServerReply.transportError)).isChecking = false :=
  (submit_no_timeout_behavior.2.2.2 (run [Ev.openCamOk 0, Ev.capture 2 2])
    { id := 0, width := 2, height := 2 } (by decide)).1

/-- C6 counterexample: `capturePhoto` has no readiness check.  Capturing
while the preview buffer has zero dimensions succeeds, producing a
degenerate 0×0 captured frame (and closing the camera) instead of failing
with a NotReady error. -/
theorem capture_zero_dimensions_not_rejected :
    (step (run [Ev.openCamOk 0]) (Ev.capture 0 0)).capturedImage =
      some { id := 0, width := 0, height := 0 } ∧
    (step (run [Ev.openCamOk 0]) (Ev.capture 0 0)).liveStreams = [] := by decide

/-- C6 (amended): whenever the video element is mounted (dialog open, no
frame held), `capturePhoto` snapshots the preview at whatever dimensions
it has — zero included — into a captured frame with exactly those
dimensions, and closes the camera; there is no NotReady failure path. -/
theorem capturePhoto_no_readiness_check (s : FlowState) (w h : Nat)
    (hopen : s.isCameraOpen = true) (hnone : s.capturedImage = none) :
    (step s (Ev.capture w h)).capturedImage =
      some { id := s.frameCounter, width := w, height := h } ∧
    (step s (Ev.capture w h)).srcObject = none ∧
    (step s (Ev.capture w h)).frameCounter = s.frameCounter + 1 := by
  rw [step_capture_pos w h s ⟨hopen, hnone⟩]
  exact ⟨rfl, rfl, rfl⟩

/-- Witness for the C6 amended theorem at a zero-dimension buffer. -/
theorem capturePhoto_no_readiness_check_witness :
    (step (run [Ev.openCamOk 0]) (Ev.capture 0 0)).srcObject = none :=
  (capturePhoto_no_readiness_check (run [Ev.openCamOk 0]) 0 0 (by decide) (by decide)).2.1

/-- C7 counterexample: a re-entrant start is not ignored.  The Take
Attendance button is never disabled (its guards are commented out,
`disabled={false}`, lines 393-401), and a second `openCamera` while a
flow is active changes the flow's state: the attached stream switches
from the first acquisition to a fresh one. -/
theorem reentrant_start_not_ignored :
    takeAttendanceDisabled = false ∧
    step (run [Ev.openCamOk 0]) (Ev.openCamOk 1) ≠ run [Ev.openCamOk 0] ∧
    (run [Ev.openCamOk 0]).srcObject = some 0 ∧
    (step (run [Ev.openCamOk 0]) (Ev.openCamOk 1)).srcObject = some 1 := by decide

/-- C7 (amended): a re-entrant start while the flow is active is
accepted, not ignored: it first closes any existing stream, then acquires
a fresh one, so no second flow runs concurrently (exactly the new stream
is live afterwards), but the current flow's camera state is changed while
its captured image and submission log are carried over. -/
theorem reentrant_start_restarts_camera (s : FlowState) (sid : Nat)
    (hinv : camInv s) :
    takeAttendanceDisabled = false ∧
    (step s (Ev.openCamOk sid)).isCameraOpen = true ∧
    (step s (Ev.openCamOk sid)).srcObject = some sid ∧
    (step s (Ev.openCamOk sid)).liveStreams = [sid] ∧
    (step s (Ev.openCamOk sid)).capturedImage = s.capturedImage ∧
    (step s (Ev.openCamOk sid)).submittedLog = s.submittedLog := by
  have hl := closeCamera_live_of_camInv s hinv
  refine ⟨rfl, ?_, ?_, ?_, ?_, ?_⟩
  · rw [step_openCamOk]
  · rw [step_openCamOk]
  · rw [step_openCamOk]
    show sid :: (closeCamera s).liveStreams = [sid]
    rw [hl]
  · rw [step_openCamOk]
  · rw [step_openCamOk]

/-- Witness for the C7 amended theorem: restarting while a stream is
already live leaves exactly the new stream live. -/
theorem reentrant_start_restarts_camera_witness :
    (step (run [Ev.openCamOk 0]) (Ev.openCamOk 1)).liveStreams = [1] :=
  (reentrant_start_restarts_camera (run [Ev.openCamOk 0]) 1
    (camInv_run [Ev.openCamOk 0] (by decide))).2.2.2.1

/-! ## Claim theorems: GeoFence Evaluator -/

theorem getDistance_self (lat lon : ℝ) :
    getDistanceFromLatLonInMeters lat lon lat lon = 0 := by
  simp [getDistanceFromLatLonInMeters, deg2rad, atan2, Real.sqrt_one, Real.arctan_zero]

/-- C4: `evaluate` is the haversine distance (Earth radius 6,371,000 m)
together with the boundary-inclusive test `withinFence ↔ distance ≤
radius`; the distance between a point and itself is 0, so a device at the
campus center (27.71477743675058, 85.30895279815599) with radius 100 m is
within the fence at distance 0. -/
theorem evaluate_haversine_within_campus :
    (∀ (p : GeoCoordinate) (f : CampusFence),
      (evaluate p f).withinFence ↔ (evaluate p f).distanceMeters ≤ f.radiusMeters) ∧
    (∀ lat lon : ℝ, getDistanceFromLatLonInMeters lat lon lat lon = 0) ∧
    (evaluate collegeCenter collegeFence).distanceMeters = 0 ∧
    (evaluate collegeCenter collegeFence).withinFence := by
  refine ⟨fun p f => Iff.rfl, getDistance_self, getDistance_self _ _, ?_⟩
  show getDistanceFromLatLonInMeters collegeCenter.lat collegeCenter.lon
      collegeCenter.lat collegeCenter.lon ≤ (100 : ℝ)
  rw [getDistance_self]
  norm_num

/-- Witness for C4: the boundary-inclusive test applied at the campus
center. -/
theorem evaluate_haversine_within_campus_witness :
    (evaluate collegeCenter collegeFence).withinFence :=
  (evaluate_haversine_within_campus.1 collegeCenter collegeFence).mpr
    (by
      rw [show (evaluate collegeCenter collegeFence).distanceMeters =
        getDistanceFromLatLonInMeters collegeCenter.lat collegeCenter.lon
          collegeCenter.lat collegeCenter.lon from rfl, getDistance_self]
      norm_num [collegeFence])

/-- C8 counterexample: the claim that malformed coordinates produce a
validation error is false.  Latitude 200 is outside [-90, 90], yet
`evaluate` (whose distance function `getDistanceFromLatLonInMeters` /
`deg2rad` performs no range check whatsoever) silently returns an
ordinary result: distance 0 and within-fence. -/
theorem evaluate_accepts_malformed_input :
    ((200 : ℝ) < -90 ∨ 90 < (200 : ℝ)) ∧
    (evaluate { lat := 200, lon := 300 }
      { center := { lat := 200, lon := 300 }, radiusMeters := 100 }).distanceMeters = 0 ∧
    (evaluate { lat := 200, lon := 300 }
      { center := { lat := 200, lon := 300 }, radiusMeters := 100 }).withinFence := by
  refine ⟨Or.inr (by norm_num), getDistance_self _ _, ?_⟩
  show getDistanceFromLatLonInMeters (200 : ℝ) 300 200 300 ≤ (100 : ℝ)
  rw [getDistance_self]
  norm_num

/-- C8 (amended): `evaluate` performs no input validation and no
clamping: a coordinate with latitude outside [-90, 90] flows through the
unvalidated haversine computation and yields a normal
distance/within-fence result (here: distance 0 to itself, within-fence
exactly when the radius is nonnegative). -/
theorem evaluate_no_validation (lat lon r : ℝ) (_h : lat < -90 ∨ 90 < lat) :
    (evaluate { lat := lat, lon := lon }
      { center := { lat := lat, lon := lon }, radiusMeters := r }).distanceMeters = 0 ∧
    ((evaluate { lat := lat, lon := lon }
      { center := { lat := lat, lon := lon }, radiusMeters := r }).withinFence ↔ 0 ≤ r) := by
  refine ⟨getDistance_self _ _, ?_⟩
  show getDistanceFromLatLonInMeters lat lon lat lon ≤ r ↔ 0 ≤ r
  rw [getDistance_self]

/-- Witness for the C8 amended theorem at latitude 200. -/
theorem evaluate_no_validation_witness :
    (evaluate { lat := 200, lon := 300 }
      { center := { lat := 200, lon := 300 }, radiusMeters := 50 }).distanceMeters = 0 :=
  (evaluate_no_validation 200 300 50 (Or.inr (by norm_num))).1

/-! ## Claim theorems: Attendance Ledger -/

theorem matchesPair_self (sid dat : String) (st : Status) (t : Nat) :
    matchesPair sid dat { studentId := sid, date := dat, status := st, recordedAt := t }
      = true := by
  simp [matchesPair]

theorem find?_none_of_countPair_zero (led : List AttendanceRecord) (sid dat : String)
    (h : countPair led sid dat = 0) : led.find? (matchesPair sid dat) = none := by
  rw [List.find?_eq_none]
  intro x hx hmx
  have hmem : x ∈ led.filter (matchesPair sid dat) := List.mem_filter.mpr ⟨hx, hmx⟩
  rw [countPair, List.length_eq_zero] at h
  rw [h] at hmem
  exact absurd hmem (List.not_mem_nil x)

theorem callSeq_stable (sid dat : String) (r0 : AttendanceRecord)
    (led : List AttendanceRecord) (hfind : led.find? (matchesPair sid dat) = some r0) :
    ∀ ts : List Nat, callSeq sid dat ts led = (ts.map fun _ => r0, led) := by
  intro ts
  induction ts with
  | nil => rfl
  | cons t ts ih => simp [callSeq, recordVerifiedCheckIn, hfind, ih]

/-- C1: `recordVerifiedCheckIn` is an idempotent upsert.  Starting from a
ledger with no record for `(studentId, date)`, any nonempty sequence of
calls for that pair (with arbitrary, possibly distinct, timestamps)
leaves exactly one persisted record for the pair, every call returns that
same record — in particular the Nth call's `recordedAt` equals the
1st call's — and no call errors (the operation is total). -/
theorem recordVerifiedCheckIn_idempotent (led : List AttendanceRecord)
    (sid dat : String) (t : Nat) (ts : List Nat)
    (h : countPair led sid dat = 0) :
    countPair (callSeq sid dat (t :: ts) led).2 sid dat = 1 ∧
    (callSeq sid dat (t :: ts) led).1 =
      (t :: ts).map (fun _ => (⟨sid, dat, Status.Present, t⟩ : AttendanceRecord)) ∧
    ∀ r ∈ (callSeq sid dat (t :: ts) led).1, r.recordedAt = t := by
  have hnone := find?_none_of_countPair_zero led sid dat h
  have hfirst : recordVerifiedCheckIn led sid dat t =
      ((⟨sid, dat, Status.Present, t⟩ : AttendanceRecord),
        (⟨sid, dat, Status.Present, t⟩ : AttendanceRecord) :: led) := by
    simp [recordVerifiedCheckIn, hnone]
  have hfind2 : ((⟨sid, dat, Status.Present, t⟩ : AttendanceRecord) :: led).find?
      (matchesPair sid dat) = some (⟨sid, dat, Status.Present, t⟩ : AttendanceRecord) :=
    List.find?_cons_of_pos _ (matchesPair_self sid dat Status.Present t)
  have hstab := callSeq_stable sid dat _ _ hfind2 ts
  have hcall : callSeq sid dat (t :: ts) led =
      ((⟨sid, dat, Status.Present, t⟩ : AttendanceRecord) ::
        (ts.map fun _ => (⟨sid, dat, Status.Present, t⟩ : AttendanceRecord)),
       (⟨sid, dat, Status.Present, t⟩ : AttendanceRecord) :: led) := by
    simp [callSeq, hfirst, hstab]
  rw [hcall]
  have hfl : led.filter (matchesPair sid dat) = [] := by
    rwa [countPair, List.length_eq_zero] at h
  refine ⟨?_, by simp, ?_⟩
  · simp [countPair, List.filter_cons, matchesPair_self, hfl]
  · intro r hr
    rcases List.mem_cons.mp hr with h1 | h1
    · rw [h1]
    · obtain ⟨a, _, h2⟩ := List.mem_map.mp h1
      rw [← h2]

/-- Witness for C1: three calls on an empty ledger persist one record. -/
theorem recordVerifiedCheckIn_idempotent_witness :
    countPair (callSeq "S1" "2024-05-01" [5, 9, 13] []).2 "S1" "2024-05-01" = 1 :=
  (recordVerifiedCheckIn_idempotent [] "S1" "2024-05-01" 5 [9, 13] rfl).1

/-! ## Claim theorems: admin bulk attendance update -/

theorem bulk_eq_sequential (fails : Nat → Bool) (st : Status) :
    ∀ (ids : List Nat) (db : List (Nat × Status)),
      bulkUpdateAttendanceEffect fails db ids st = sequentialUpdatesEffect fails db ids st := by
  intro ids
  induction ids with
  | nil => intro db; rfl
  | cons i rest ih => intro db; exact ih (updateAttendanceStatusEffect fails db i st)

theorem updateEffect_preserves_key (fails : Nat → Bool) (st : Status) (i j : Nat)
    (db : List (Nat × Status)) (h : ∀ p ∈ db, p.1 = i → p.2 = st) :
    ∀ p ∈ updateAttendanceStatusEffect fails db j st, p.1 = i → p.2 = st := by
  intro p hp hpi
  unfold updateAttendanceStatusEffect at hp
  by_cases hf : fails j
  · rw [if_pos hf] at hp
    exact h p hp hpi
  · rw [if_neg hf] at hp
    obtain ⟨q, hq, hpq⟩ := List.mem_map.mp hp
    by_cases hqj : q.1 = j
    · rw [if_pos hqj] at hpq
      rw [← hpq]
    · rw [if_neg hqj] at hpq
      subst hpq
      exact h q hq hpi

theorem bulk_preserves_key (fails : Nat → Bool) (st : Status) (i : Nat) :
    ∀ (ids : List Nat) (db : List (Nat × Status)),
      (∀ p ∈ db, p.1 = i → p.2 = st) →
      ∀ p ∈ bulkUpdateAttendanceEffect fails db ids st, p.1 = i → p.2 = st := by
  intro ids
  induction ids with
  | nil => intro db h; exact h
  | cons j rest ih =>
      intro db h
      exact ih (updateAttendanceStatusEffect fails db j st)
        (updateEffect_preserves_key fails st i j db h)

theorem updateEffect_sets_key (fails : Nat → Bool) (st : Status) (i : Nat)
    (db : List (Nat × Status)) (hok : fails i = false) :
    ∀ p ∈ updateAttendanceStatusEffect fails db i st, p.1 = i → p.2 = st := by
  intro p hp hpi
  simp only [updateAttendanceStatusEffect, hok, Bool.false_eq_true, if_false] at hp
  obtain ⟨q, hq, hpq⟩ := List.mem_map.mp hp
  by_cases hqi : q.1 = i
  · rw [if_pos hqi] at hpq
    rw [← hpq]
  · rw [if_neg hqi] at hpq
    subst hpq
    exact absurd hpi hqi

/-- C9: the admin bulk attendance update is N independent per-record
updates with no cross-record atomicity: its server effect equals issuing
`updateAttendanceStatus(id, status)` once per id in order, and for every
id whose own request succeeds the status is applied, regardless of other
ids in the batch failing — no rollback, no prevention. -/
theorem bulkUpdate_is_sequential_no_atomicity (fails : Nat → Bool)
    (db : List (Nat × Status)) (ids : List Nat) (st : Status) :
    bulkUpdateAttendanceEffect fails db ids st = sequentialUpdatesEffect fails db ids st ∧
    (∀ i ∈ ids, fails i = false →
      ∀ p ∈ bulkUpdateAttendanceEffect fails db ids st, p.1 = i → p.2 = st) := by
  refine ⟨bulk_eq_sequential fails st ids db, ?_⟩
  have main : ∀ (l : List Nat) (d : List (Nat × Status)) (i : Nat), i ∈ l →
      fails i = false →
      ∀ p ∈ bulkUpdateAttendanceEffect fails d l st, p.1 = i → p.2 = st := by
    intro l
    induction l with
    | nil => intro d i hi; exact absurd hi (List.not_mem_nil i)
    | cons j rest ih =>
        intro d i hi hok
        rcases List.mem_cons.mp hi with h1 | h1
        · subst h1
          exact bulk_preserves_key fails st i rest
            (updateAttendanceStatusEffect fails d i st)
            (updateEffect_sets_key fails st i d hok)
        · exact ih (updateAttendanceStatusEffect fails d j st) i h1 hok
  exact fun i hi hok => main ids db i hi hok

/-- Witness for C9: a batch of two where the request for record 2 fails
still equals the sequential composition and still updates record 1. -/
theorem bulkUpdate_is_sequential_witness :
    bulkUpdateAttendanceEffect (fun i => i == 2)
        [(1, Status.Absent), (2, Status.Absent)] [1, 2] Status.Present
      = sequentialUpdatesEffect (fun i => i == 2)
        [(1, Status.Absent), (2, Status.Absent)] [1, 2] Status.Present ∧
    ((1 : Nat), Status.Present).2 = Status.Present :=
  ⟨(bulkUpdate_is_sequential_no_atomicity (fun i => i == 2)
      [(1, Status.Absent), (2, Status.Absent)] [1, 2] Status.Present).1,
   (bulkUpdate_is_sequential_no_atomicity (fun i => i == 2)
      [(1, Status.Absent), (2, Status.Absent)] [1, 2] Status.Present).2
     1 (by decide) (by decide) (1, Status.Present) (by decide) rfl⟩

/-! ## Claim theorems: verified-today indicator -/

/-- C10: on data load, `isVerified` is set to true exactly when the
parsed `last_check_in` and the current date agree on the local calendar
day triple (toDateString equality), independent of time of day: two
times 23h58m apart on the same local day compare verified, two times two
minutes apart across local midnight do not — a local-calendar-day
comparison, not a 24-hour window; without loaded data the effect leaves
the flag unchanged. -/
theorem isVerified_local_calendar_day :
    (∀ (d now : JSDate) (prev : Bool),
      isVerifiedAfterLoad (some d) now prev = true ↔
        (d.year = now.year ∧ d.month = now.month ∧ d.day = now.day)) ∧
    isVerifiedAfterLoad (some { year := 2024, month := 4, day := 1, hour := 0, minute := 1 })
      { year := 2024, month := 4, day := 1, hour := 23, minute := 59 } false = true ∧
    isVerifiedAfterLoad (some { year := 2024, month := 4, day := 1, hour := 23, minute := 59 })
      { year := 2024, month := 4, day := 2, hour := 0, minute := 1 } true = false ∧
    (∀ (now : JSDate) (prev : Bool), isVerifiedAfterLoad none now prev = prev) := by
  refine ⟨fun d now prev => ?_, by decide, by decide, fun now prev => rfl⟩
  simp [isVerifiedAfterLoad, toDateString, Prod.ext_iff]

/-- Witness for C10: same local calendar day at different times of day
compares verified. -/
theorem isVerified_local_calendar_day_witness :
    isVerifiedAfterLoad (some { year := 2026, month := 9, day := 12, hour := 8, minute := 0 })
      { year := 2026, month := 9, day := 12, hour := 20, minute := 30 } false = true :=
  (isVerified_local_calendar_day.1 _ _ _).mpr ⟨rfl, rfl, rfl⟩

end AttendanceSystem

